import Mathlib

/-!
Verification of the mongollect collection-injection layer.

This file gives a shallow embedding of src/mongollect/core.py: the CRUDMixin
capability set and the CollectionInjector decorator factories, together with
theorems settling the specification claims about them.

Modelling conventions:
* Documents, query filters and update specs are association lists from string
  keys to integer values (the layer treats them as opaque structured data; only
  equality-on-field matching is needed for the find-path claims).
* The Collection boundary is modelled as a named, ordered list of documents;
  every operation of the mixin records the boundary calls it performs in a
  trace so that claims about which calls reach the boundary are statable.
* Python exceptions are modelled structurally by the PyError inductive; every
  constructor is documented with the exception it stands for.
* A CRUDMixin instance is modelled by the state of its collection attribute:
  the attribute can be absent (hasattr is false), bound to Python None, or
  bound to an actual collection.
-/

abbrev Doc : Type := List (String × Int)

abbrev Query : Type := List (String × Int)

abbrev Update : Type := List (String × Int)

/-- A document-database collection at the external boundary: a name and an
ordered list of stored documents. -/
structure Collection where
  name : String
  docs : List Doc
  deriving DecidableEq

/-- Equality-on-field matching: a document matches a filter when every
key-value pair of the filter is present in the document. The empty filter
matches every document. -/
def docMatches (q : Query) (d : Doc) : Bool :=
  q.all (fun kv => List.lookup kv.fst d == some kv.snd)

/-- Boundary semantics of collection.find(query): the ordered list of the
stored documents that match the filter. -/
def Collection.findDocs (c : Collection) (q : Query) : List Doc :=
  c.docs.filter (docMatches q)

/-- Boundary semantics of collection.find_one(query): the first matching
document, or the absence value. -/
def Collection.findOneDoc (c : Collection) (q : Query) : Option Doc :=
  (c.findDocs q).head?

/-- Boundary semantics of collection.count_documents(query, limit=...): the
number of matching documents, capped at the limit when one is given. -/
def Collection.countDocs (c : Collection) (q : Query) (lim : Option Nat) : Nat :=
  match lim with
  | none => (c.findDocs q).length
  | some n => min (c.findDocs q).length n

/-- The database handle: supports lookup of a collection by name, failing with
a not-found condition (KeyError on db[name]) when the name is unknown. -/
structure Db where
  collections : List (String × Collection)
  deriving DecidableEq

/-- Python exceptions raised by the layer, modelled structurally. -/
inductive PyError where
  /-- AttributeError with the message: No collection found. Ensure class is
  decorated with @injector.collection() -- raised by the hasattr guard of
  every CRUDMixin operation. -/
  | attributeErrorNoCollection
  /-- AttributeError raised by attribute lookup on None, message: NoneType
  object has no attribute (method) -- quotes of the CPython message elided. -/
  | attributeErrorNoneType (method : String)
  /-- AttributeError raised by functools.update_wrapper when wraps is applied
  to a class: mappingproxy object has no attribute update. -/
  | attributeErrorMappingproxy
  /-- AttributeError raised when the instance has no db attribute at the
  point Wrapped.init evaluates self.db. -/
  | attributeErrorNoDb
  /-- KeyError with message: Collection (name) not accessible in database --
  raised by the decorators at decoration time on a failed lookup. -/
  | keyErrorNotAccessible (name : String)
  /-- Raw KeyError propagating from db[name] when the lookup is not guarded
  by the decoration-time try block. -/
  | keyErrorRaw (name : String)
  /-- ValueError: Collection name must be a non-empty string. -/
  | valueErrorEmptyName
  /-- ValueError: At least one collection must be specified. -/
  | valueErrorNoCollections
  /-- TypeError: Decorator can only be applied to classes. -/
  | typeErrorNotClass
  deriving DecidableEq

/-- Calls issued against the collection boundary (and its cursors), tagged
with the concrete collection value that receives the call. -/
inductive BoundaryCall where
  | insertOne (c : Collection) (d : Doc)
  | insertMany (c : Collection) (ds : List Doc)
  | findOne (c : Collection) (q : Query)
  | find (c : Collection) (q : Query)
  | cursorLimit (n : Int)
  | updateOne (c : Collection) (q : Query) (u : Update)
  | updateMany (c : Collection) (q : Query) (u : Update)
  | deleteOne (c : Collection) (q : Query)
  | deleteMany (c : Collection) (q : Query)
  | countDocuments (c : Collection) (q : Query) (lim : Option Nat)
  deriving DecidableEq

/-- Opaque driver results returned unchanged by the write operations. -/
inductive DriverResult where
  | insertOneR (d : Doc)
  | insertManyR (ds : List Doc)
  | updateOneR (q : Query) (u : Update)
  | updateManyR (q : Query) (u : Update)
  | deleteOneR (q : Query)
  | deleteManyR (q : Query)
  deriving DecidableEq

/-- State of a CRUDMixin instance, reduced to the one attribute the mixin
reads. none: the collection attribute is absent (hasattr is false);
some none: the attribute is bound to Python None (hasattr is true);
some (some c): the attribute is bound to collection c. -/
structure CrudState where
  collection : Option (Option Collection)
  deriving DecidableEq

namespace CRUDMixin

/-- CRUDMixin.create (core.py lines 13-25): hasattr guard, then
self.collection.insert_one(data). With the attribute bound to None the guard
passes and the insert_one attribute lookup on None raises. -/
def create (s : CrudState) (data : Doc) :
    Except PyError DriverResult × List BoundaryCall :=
  match s.collection with
  | none => (Except.error PyError.attributeErrorNoCollection, [])
  | some none => (Except.error (PyError.attributeErrorNoneType "insert_one"), [])
  | some (some c) =>
      (Except.ok (DriverResult.insertOneR data), [BoundaryCall.insertOne c data])

/-- CRUDMixin.create_many (lines 27-39): guard, then insert_many. -/
def create_many (s : CrudState) (data : List Doc) :
    Except PyError DriverResult × List BoundaryCall :=
  match s.collection with
  | none => (Except.error PyError.attributeErrorNoCollection, [])
  | some none => (Except.error (PyError.attributeErrorNoneType "insert_many"), [])
  | some (some c) =>
      (Except.ok (DriverResult.insertManyR data), [BoundaryCall.insertMany c data])

/-- CRUDMixin.find_by_id (lines 41-53): guard, then
self.collection.find_one with the identifier-equality filter. -/
def find_by_id (s : CrudState) (docId : Int) :
    Except PyError (Option Doc) × List BoundaryCall :=
  match s.collection with
  | none => (Except.error PyError.attributeErrorNoCollection, [])
  | some none => (Except.error (PyError.attributeErrorNoneType "find_one"), [])
  | some (some c) =>
      (Except.ok (c.findOneDoc [("_id", docId)]),
       [BoundaryCall.findOne c [("_id", docId)]])

/-- CRUDMixin.find_one (lines 55-67): guard, then find_one(query). -/
def find_one (s : CrudState) (query : Query) :
    Except PyError (Option Doc) × List BoundaryCall :=
  match s.collection with
  | none => (Except.error PyError.attributeErrorNoCollection, [])
  | some none => (Except.error (PyError.attributeErrorNoneType "find_one"), [])
  | some (some c) =>
      (Except.ok (c.findOneDoc query), [BoundaryCall.findOne c query])

/-- CRUDMixin.find_many (lines 69-87): guard, query = query or curly-braces
(Python truthiness: None and the empty dict both normalize to the empty
filter), cursor = find(query), cursor.limit(limit) only when limit is truthy
(None and 0 are falsy), list(cursor). A negative limit follows the documented
driver semantics of returning at most the absolute value many documents. -/
def find_many (s : CrudState) (query : Option Query) (limit : Option Int) :
    Except PyError (List Doc) × List BoundaryCall :=
  match s.collection with
  | none => (Except.error PyError.attributeErrorNoCollection, [])
  | some none => (Except.error (PyError.attributeErrorNoneType "find"), [])
  | some (some c) =>
      let q := query.getD []
      let results := c.findDocs q
      match limit with
      | none => (Except.ok results, [BoundaryCall.find c q])
      | some l =>
          if l = 0 then (Except.ok results, [BoundaryCall.find c q])
          else (Except.ok (results.take l.natAbs),
                [BoundaryCall.find c q, BoundaryCall.cursorLimit l])

/-- CRUDMixin.find_all (lines 89-107): byte-for-byte the same body as
find_many in the source. -/
def find_all (s : CrudState) (query : Option Query) (limit : Option Int) :
    Except PyError (List Doc) × List BoundaryCall :=
  match s.collection with
  | none => (Except.error PyError.attributeErrorNoCollection, [])
  | some none => (Except.error (PyError.attributeErrorNoneType "find"), [])
  | some (some c) =>
      let q := query.getD []
      let results := c.findDocs q
      match limit with
      | none => (Except.ok results, [BoundaryCall.find c q])
      | some l =>
          if l = 0 then (Except.ok results, [BoundaryCall.find c q])
          else (Except.ok (results.take l.natAbs),
                [BoundaryCall.find c q, BoundaryCall.cursorLimit l])

/-- CRUDMixin.update_by_id (lines 109-122): guard, then update_one with the
identifier-equality filter. -/
def update_by_id (s : CrudState) (docId : Int) (updateData : Update) :
    Except PyError DriverResult × List BoundaryCall :=
  match s.collection with
  | none => (Except.error PyError.attributeErrorNoCollection, [])
  | some none => (Except.error (PyError.attributeErrorNoneType "update_one"), [])
  | some (some c) =>
      (Except.ok (DriverResult.updateOneR [("_id", docId)] updateData),
       [BoundaryCall.updateOne c [("_id", docId)] updateData])

/-- CRUDMixin.update_one (lines 124-137): guard, then update_one. -/
def update_one (s : CrudState) (query : Query) (upd : Update) :
    Except PyError DriverResult × List BoundaryCall :=
  match s.collection with
  | none => (Except.error PyError.attributeErrorNoCollection, [])
  | some none => (Except.error (PyError.attributeErrorNoneType "update_one"), [])
  | some (some c) =>
      (Except.ok (DriverResult.updateOneR query upd),
       [BoundaryCall.updateOne c query upd])

/-- CRUDMixin.update_many (lines 139-152): guard, then update_many. -/
def update_many (s : CrudState) (query : Query) (upd : Update) :
    Except PyError DriverResult × List BoundaryCall :=
  match s.collection with
  | none => (Except.error PyError.attributeErrorNoCollection, [])
  | some none => (Except.error (PyError.attributeErrorNoneType "update_many"), [])
  | some (some c) =>
      (Except.ok (DriverResult.updateManyR query upd),
       [BoundaryCall.updateMany c query upd])

/-- CRUDMixin.delete_by_id (lines 154-166): guard, then delete_one with the
identifier-equality filter. -/
def delete_by_id (s : CrudState) (docId : Int) :
    Except PyError DriverResult × List BoundaryCall :=
  match s.collection with
  | none => (Except.error PyError.attributeErrorNoCollection, [])
  | some none => (Except.error (PyError.attributeErrorNoneType "delete_one"), [])
  | some (some c) =>
      (Except.ok (DriverResult.deleteOneR [("_id", docId)]),
       [BoundaryCall.deleteOne c [("_id", docId)]])

/-- CRUDMixin.delete_one (lines 168-180): guard, then delete_one. -/
def delete_one (s : CrudState) (query : Query) :
    Except PyError DriverResult × List BoundaryCall :=
  match s.collection with
  | none => (Except.error PyError.attributeErrorNoCollection, [])
  | some none => (Except.error (PyError.attributeErrorNoneType "delete_one"), [])
  | some (some c) =>
      (Except.ok (DriverResult.deleteOneR query), [BoundaryCall.deleteOne c query])

/-- CRUDMixin.delete_many (lines 182-194): guard, then delete_many. -/
def delete_many (s : CrudState) (query : Query) :
    Except PyError DriverResult × List BoundaryCall :=
  match s.collection with
  | none => (Except.error PyError.attributeErrorNoCollection, [])
  | some none => (Except.error (PyError.attributeErrorNoneType "delete_many"), [])
  | some (some c) =>
      (Except.ok (DriverResult.deleteManyR query), [BoundaryCall.deleteMany c query])

/-- CRUDMixin.count_documents (lines 196-210): guard, query = query or
curly-braces, then count_documents(query) with no limit. -/
def count_documents (s : CrudState) (query : Option Query) :
    Except PyError Nat × List BoundaryCall :=
  match s.collection with
  | none => (Except.error PyError.attributeErrorNoCollection, [])
  | some none => (Except.error (PyError.attributeErrorNoneType "count_documents"), [])
  | some (some c) =>
      let q := query.getD []
      (Except.ok (c.countDocs q none), [BoundaryCall.countDocuments c q none])

/-- CRUDMixin.count (lines 212-222): pure delegation to count_documents, with
no guard of its own. -/
def count (s : CrudState) (query : Option Query) :
    Except PyError Nat × List BoundaryCall :=
  count_documents s query

/-- CRUDMixin.exists (lines 224-236): guard, then
count_documents(query, limit=1) greater than 0. Named existsDoc because
exists is a reserved word in Lean. -/
def existsDoc (s : CrudState) (query : Query) :
    Except PyError Bool × List BoundaryCall :=
  match s.collection with
  | none => (Except.error PyError.attributeErrorNoCollection, [])
  | some none => (Except.error (PyError.attributeErrorNoneType "count_documents"), [])
  | some (some c) =>
      (Except.ok (decide (0 < c.countDocs query (some 1))),
       [BoundaryCall.countDocuments c query (some 1)])

end CRUDMixin

/-- The injector: owns the database handle (core.py lines 239-265; the
constructor rejects a missing handle, not modelled further since no claim
concerns it). -/
structure CollectionInjector where
  db : Db
  deriving DecidableEq

/-- Configuration closed over by the decorator returned by
CollectionInjector.collection: the handle, the collection name and the
with_crud flag. -/
structure CollectionDecorator where
  db : Db
  name : String
  with_crud : Bool
  deriving DecidableEq

/-- CollectionInjector.collection (lines 267-299, factory stage): validates
that the name is a non-empty string (Python: not name or not
isinstance(name, str); in this embedding names are strings, so the check is
emptiness) and returns the decorator closure. -/
def CollectionInjector.collection (inj : CollectionInjector) (name : String)
    (with_crud : Bool) : Except PyError CollectionDecorator :=
  if name = "" then Except.error PyError.valueErrorEmptyName
  else Except.ok ⟨inj.db, name, with_crud⟩

/-- CollectionInjector.collection invoked without the with_crud argument: the
signature default is with_crud = True (line 267). -/
def CollectionInjector.collectionDefault (inj : CollectionInjector)
    (name : String) : Except PyError CollectionDecorator :=
  inj.collection name true

/-- The composed type the decorator would produce on success. -/
structure WrappedType where
  clsName : String
  collectionName : String
  with_crud : Bool
  deriving DecidableEq

/-- Behavior of functools.wraps applied to a class (the source decorates the
inner class Wrapped with wraps(cls), lines 326-327 and 415-416):
update_wrapper assigns the metadata attributes and then calls
getattr(wrapper, dunder-dict).update(...); the dunder dict of a class is a
read-only mappingproxy with no update method, so the call raises
AttributeError under every CPython 3 release. -/
def wrapsOnClass : Except PyError Unit :=
  Except.error PyError.attributeErrorMappingproxy

/-- Applying the decorator produced by collection(name) to a class
(wrapper, lines 301-372): TypeError unless the target is a class; then the
decoration-time probe db[name], whose KeyError or AttributeError is re-raised
as the distinct not-accessible KeyError; then the wraps(cls)-decorated class
statement for Wrapped (which raises, see wrapsOnClass). clsIsType models
isinstance(cls, type). -/
def applyCollectionDecorator (dec : CollectionDecorator) (clsIsType : Bool)
    (clsName : String) : Except PyError WrappedType :=
  if clsIsType then
    match List.lookup dec.name dec.db.collections with
    | none => Except.error (PyError.keyErrorNotAccessible dec.name)
    | some _ =>
        match wrapsOnClass with
        | Except.error e => Except.error e
        | Except.ok _ => Except.ok ⟨clsName, dec.name, dec.with_crud⟩
  else Except.error PyError.typeErrorNotClass

/-- Configuration closed over by the decorator returned by
multiple_collections: the handle, the with_crud flag and the attribute-name
to collection-name map in declaration order (Python keyword arguments keep
declaration order). -/
structure MultipleDecorator where
  db : Db
  with_crud : Bool
  cols : List (String × String)
  deriving DecidableEq

/-- CollectionInjector.multiple_collections (lines 374-397, factory stage):
rejects an empty name map, else returns the decorator closure. -/
def CollectionInjector.multiple_collections (inj : CollectionInjector)
    (with_crud : Bool) (cols : List (String × String)) :
    Except PyError MultipleDecorator :=
  if cols.isEmpty then Except.error PyError.valueErrorNoCollections
  else Except.ok ⟨inj.db, with_crud, cols⟩

/-- CollectionInjector.multiple_collections invoked without the with_crud
argument: the signature default is with_crud = False (line 374). -/
def CollectionInjector.multipleCollectionsDefault (inj : CollectionInjector)
    (cols : List (String × String)) : Except PyError MultipleDecorator :=
  inj.multiple_collections false cols

/-- Decoration-time validation loop of multiple_collections (lines 403-408):
probes db[collection_name] for every entry in declaration order, re-raising
the first failure as the distinct not-accessible KeyError. -/
def lookupAllCollections (d : Db) : List (String × String) → Except PyError Unit
  | [] => Except.ok ()
  | (_, cname) :: rest =>
      match List.lookup cname d.collections with
      | none => Except.error (PyError.keyErrorNotAccessible cname)
      | some _ => lookupAllCollections d rest

/-- Applying the decorator produced by multiple_collections to a class
(wrapper, lines 399-448): TypeError unless the target is a class; then the
per-entry validation loop; then the wraps(cls)-decorated class statement for
Wrapped (which raises, see wrapsOnClass). -/
def applyMultipleDecorator (dec : MultipleDecorator) (clsIsType : Bool)
    (clsName : String) : Except PyError WrappedType :=
  if clsIsType then
    match lookupAllCollections dec.db dec.cols with
    | Except.error e => Except.error e
    | Except.ok _ =>
        match wrapsOnClass with
        | Except.error e => Except.error e
        | Except.ok _ => Except.ok ⟨clsName, "", dec.with_crud⟩
  else Except.error PyError.typeErrorNotClass

/-- Instance namespace at the end of the base-initializer loop of
Wrapped.init for the single-collection decorator. -/
structure PyInstance where
  db : Option Db
  collection : Option (Option Collection)
  deriving DecidableEq

/-- Injection step of Wrapped.init for the single-collection decorator
(line 358): self.collection = self.db[name]. self here is the freshly built
instance, which shadows the injector bound as self in the enclosing method,
so db is resolved as an attribute of the instance: absent unless user code
set it, in which case the line raises AttributeError before any assignment;
a failed db[name] at this point is an unguarded raw KeyError. Reachable only
when the wraps failure is bypassed, as the test suite does by patching it. -/
def wrappedCollectionInject (name : String) (inst : PyInstance) :
    Except PyError PyInstance :=
  match inst.db with
  | none => Except.error PyError.attributeErrorNoDb
  | some d =>
      match List.lookup name d.collections with
      | none => Except.error (PyError.keyErrorRaw name)
      | some c => Except.ok { inst with collection := some (some c) }

/-- Instance namespace for the multiple-collections decorator: the db
attribute, the named injected attributes, and the default collection
attribute. -/
structure MPyInstance where
  db : Option Db
  attrs : List (String × Collection)
  collection : Option (Option Collection)
  deriving DecidableEq

/-- Attribute-assignment loop of Wrapped.init for multiple_collections
(lines 429-430): setattr(self, attr_name, self.db[collection_name]) for each
entry in declaration order; an unknown name raises a raw KeyError. -/
def assignInjectedAttrs (d : Db) :
    List (String × String) → List (String × Collection) →
    Except PyError (List (String × Collection))
  | [], acc => Except.ok acc
  | (a, cname) :: rest, acc =>
      match List.lookup cname d.collections with
      | none => Except.error (PyError.keyErrorRaw cname)
      | some c => assignInjectedAttrs d rest (acc ++ [(a, c)])

/-- Injection steps of Wrapped.init for multiple_collections (lines
417-435): resolve self.db on the instance (raising when absent, exactly as in
wrappedCollectionInject), run the attribute loop, then, when with_crud is set
and the map is non-empty, assign the first declared collection as the default
collection attribute. Reachable only with the wraps failure bypassed. -/
def multipleCollectionsInject (with_crud : Bool) (cols : List (String × String))
    (inst : MPyInstance) : Except PyError MPyInstance :=
  match inst.db with
  | none => Except.error PyError.attributeErrorNoDb
  | some d =>
      match assignInjectedAttrs d cols [] with
      | Except.error e => Except.error e
      | Except.ok attrs =>
          match with_crud, cols with
          | true, (_, first) :: _ =>
              match List.lookup first d.collections with
              | none => Except.error (PyError.keyErrorRaw first)
              | some c => Except.ok ⟨some d, attrs, some (some c)⟩
          | _, _ => Except.ok ⟨some d, attrs, inst.collection⟩

/-- C1: for every capability-set operation (create, create_many, find_by_id,
find_one, find_many, find_all, update_by_id, update_one, update_many,
delete_by_id, delete_one, delete_many, count_documents, count, exists),
invoking it on an instance whose collection attribute is absent returns the
missing-collection configuration AttributeError immediately, with an empty
boundary-call trace. -/
theorem C1_missing_collection_config_error (s : CrudState)
    (h : s.collection = none) (d : Doc) (ds : List Doc) (i : Int) (q : Query)
    (oq : Option Query) (ol : Option Int) (u : Update) :
    CRUDMixin.create s d = (Except.error PyError.attributeErrorNoCollection, []) ∧
    CRUDMixin.create_many s ds = (Except.error PyError.attributeErrorNoCollection, []) ∧
    CRUDMixin.find_by_id s i = (Except.error PyError.attributeErrorNoCollection, []) ∧
    CRUDMixin.find_one s q = (Except.error PyError.attributeErrorNoCollection, []) ∧
    CRUDMixin.find_many s oq ol = (Except.error PyError.attributeErrorNoCollection, []) ∧
    CRUDMixin.find_all s oq ol = (Except.error PyError.attributeErrorNoCollection, []) ∧
    CRUDMixin.update_by_id s i u = (Except.error PyError.attributeErrorNoCollection, []) ∧
    CRUDMixin.update_one s q u = (Except.error PyError.attributeErrorNoCollection, []) ∧
    CRUDMixin.update_many s q u = (Except.error PyError.attributeErrorNoCollection, []) ∧
    CRUDMixin.delete_by_id s i = (Except.error PyError.attributeErrorNoCollection, []) ∧
    CRUDMixin.delete_one s q = (Except.error PyError.attributeErrorNoCollection, []) ∧
    CRUDMixin.delete_many s q = (Except.error PyError.attributeErrorNoCollection, []) ∧
    CRUDMixin.count_documents s oq = (Except.error PyError.attributeErrorNoCollection, []) ∧
    CRUDMixin.count s oq = (Except.error PyError.attributeErrorNoCollection, []) ∧
    CRUDMixin.existsDoc s q = (Except.error PyError.attributeErrorNoCollection, []) := by
  obtain ⟨c⟩ := s
  cases h
  exact ⟨rfl, rfl, rfl, rfl, rfl, rfl, rfl, rfl, rfl, rfl, rfl, rfl, rfl, rfl, rfl⟩

/-- Witness for C1 at the concrete attribute-absent state. -/
theorem C1_missing_collection_witness :
    CRUDMixin.create ⟨none⟩ [("a", 1)] =
      (Except.error PyError.attributeErrorNoCollection, []) :=
  (C1_missing_collection_config_error ⟨none⟩ rfl [("a", 1)] [] 0 [] none none []).1

/-- C3 counterexample: on an instance whose collection attribute has been
reassigned to None, create does not raise the missing-collection
configuration error; the hasattr guard passes and the error raised is the
distinct NoneType attribute error from the insert_one lookup on None. -/
theorem C3_counterexample :
    CRUDMixin.create ⟨some none⟩ [("a", 1)] =
      (Except.error (PyError.attributeErrorNoneType "insert_one"), []) ∧
    PyError.attributeErrorNoneType "insert_one" ≠
      PyError.attributeErrorNoCollection :=
  ⟨rfl, by decide⟩

/-- C3 amended: with the collection attribute bound to None, every
capability-set operation raises an AttributeError arising from attribute
lookup on None (still with no boundary call performed), and that error is
distinct from the missing-collection configuration error raised when the
attribute is absent. -/
theorem C3_amended_none_collection (s : CrudState)
    (h : s.collection = some none) (d : Doc) (ds : List Doc) (i : Int)
    (q : Query) (oq : Option Query) (ol : Option Int) (u : Update) :
    CRUDMixin.create s d = (Except.error (PyError.attributeErrorNoneType "insert_one"), []) ∧
    CRUDMixin.create_many s ds = (Except.error (PyError.attributeErrorNoneType "insert_many"), []) ∧
    CRUDMixin.find_by_id s i = (Except.error (PyError.attributeErrorNoneType "find_one"), []) ∧
    CRUDMixin.find_one s q = (Except.error (PyError.attributeErrorNoneType "find_one"), []) ∧
    CRUDMixin.find_many s oq ol = (Except.error (PyError.attributeErrorNoneType "find"), []) ∧
    CRUDMixin.find_all s oq ol = (Except.error (PyError.attributeErrorNoneType "find"), []) ∧
    CRUDMixin.update_by_id s i u = (Except.error (PyError.attributeErrorNoneType "update_one"), []) ∧
    CRUDMixin.update_one s q u = (Except.error (PyError.attributeErrorNoneType "update_one"), []) ∧
    CRUDMixin.update_many s q u = (Except.error (PyError.attributeErrorNoneType "update_many"), []) ∧
    CRUDMixin.delete_by_id s i = (Except.error (PyError.attributeErrorNoneType "delete_one"), []) ∧
    CRUDMixin.delete_one s q = (Except.error (PyError.attributeErrorNoneType "delete_one"), []) ∧
    CRUDMixin.delete_many s q = (Except.error (PyError.attributeErrorNoneType "delete_many"), []) ∧
    CRUDMixin.count_documents s oq = (Except.error (PyError.attributeErrorNoneType "count_documents"), []) ∧
    CRUDMixin.count s oq = (Except.error (PyError.attributeErrorNoneType "count_documents"), []) ∧
    CRUDMixin.existsDoc s q = (Except.error (PyError.attributeErrorNoneType "count_documents"), []) ∧
    (∀ m : String, PyError.attributeErrorNoneType m ≠ PyError.attributeErrorNoCollection) := by
  obtain ⟨c⟩ := s
  cases h
  refine ⟨rfl, rfl, rfl, rfl, rfl, rfl, rfl, rfl, rfl, rfl, rfl, rfl, rfl, rfl, rfl, ?_⟩
  intro m hm
  exact PyError.noConfusion hm

/-- Witness for C3 amended at the concrete None-bound state. -/
theorem C3_amended_witness :
    CRUDMixin.find_one ⟨some none⟩ [] =
      (Except.error (PyError.attributeErrorNoneType "find_one"), []) :=
  (C3_amended_none_collection ⟨some none⟩ rfl [] [] 0 [] none none []).2.2.2.1

/-- C8: count and count_documents are observably identical for every instance
state and every input: same result (value or error) and the same
boundary-call trace, because count delegates unconditionally. -/
theorem C8_count_is_count_documents (s : CrudState) (q : Option Query) :
    CRUDMixin.count s q = CRUDMixin.count_documents s q := rfl

/-- C6 counterexample: supplying the limit value 0 does not cap the returned
list to length 0 — Python treats 0 as falsy, the cursor cap is skipped, and
all matching documents come back. Concretely, on a one-document collection,
find_many with no filter and limit 0 returns the whole document list, whose
length is not at most 0. -/
theorem C6_counterexample_limit_zero :
    (CRUDMixin.find_many ⟨some (some ⟨"c", [[("k", 1)]]⟩)⟩ none (some 0)).fst =
      Except.ok [[("k", 1)]] ∧
    ¬ (List.length [[("k", 1)]] ≤ 0) :=
  ⟨rfl, by decide⟩

/-- C6 amended: for every instance with a resolved collection, find_many and
find_all with no filter return exactly what they return with the
match-everything filter; and supplying a positive limit caps the materialized
result to a prefix (List.take) of the unlimited result, so the length is
capped at the limit and the element order is unchanged. A limit of 0 is
falsy in Python and applies no cap (see C10). -/
theorem C6_amended_filter_and_limit (s : CrudState) (c : Collection)
    (h : s.collection = some (some c)) (oq : Option Query) (l : Int)
    (hl : 0 < l) :
    CRUDMixin.find_many s none (some l) = CRUDMixin.find_many s (some []) (some l) ∧
    CRUDMixin.find_all s none (some l) = CRUDMixin.find_all s (some []) (some l) ∧
    CRUDMixin.find_many s none none = CRUDMixin.find_many s (some []) none ∧
    CRUDMixin.find_all s none none = CRUDMixin.find_all s (some []) none ∧
    (CRUDMixin.find_many s oq (some l)).fst =
      Except.ok ((c.findDocs (oq.getD [])).take l.natAbs) ∧
    (CRUDMixin.find_many s oq none).fst = Except.ok (c.findDocs (oq.getD [])) ∧
    (CRUDMixin.find_all s oq (some l)).fst =
      Except.ok ((c.findDocs (oq.getD [])).take l.natAbs) ∧
    (CRUDMixin.find_all s oq none).fst = Except.ok (c.findDocs (oq.getD [])) := by
  obtain ⟨oc⟩ := s
  cases h
  refine ⟨rfl, rfl, rfl, rfl, ?_, rfl, ?_, rfl⟩ <;>
    simp [CRUDMixin.find_many, CRUDMixin.find_all, hl.ne']

/-- Witness for C6 amended at a concrete collection, filter and limit. -/
theorem C6_amended_witness :
    (CRUDMixin.find_many ⟨some (some ⟨"c", [[("k", 1)], [("k", 2)]]⟩)⟩ none
        (some 1)).fst =
      Except.ok ((Collection.findDocs ⟨"c", [[("k", 1)], [("k", 2)]]⟩
        ((none : Option Query).getD [])).take (Int.natAbs 1)) :=
  (C6_amended_filter_and_limit ⟨some (some ⟨"c", [[("k", 1)], [("k", 2)]]⟩)⟩
    ⟨"c", [[("k", 1)], [("k", 2)]]⟩ rfl none 1 (by decide)).2.2.2.2.1

/-- C7: for every instance with a resolved collection and every filter,
exists returns true exactly when the matching-document count capped at 1 is
at least 1, and the single boundary call it performs is a count_documents
request carrying limit 1. -/
theorem C7_exists_capped_count (s : CrudState) (c : Collection)
    (h : s.collection = some (some c)) (q : Query) :
    ((CRUDMixin.existsDoc s q).fst = Except.ok true ↔
      1 ≤ c.countDocs q (some 1)) ∧
    (CRUDMixin.existsDoc s q).snd = [BoundaryCall.countDocuments c q (some 1)] := by
  obtain ⟨oc⟩ := s
  cases h
  refine ⟨?_, rfl⟩
  simp [CRUDMixin.existsDoc, Nat.lt_iff_add_one_le]

/-- Witness for C7 at a concrete collection and filter. -/
theorem C7_exists_witness :
    ((CRUDMixin.existsDoc ⟨some (some ⟨"c", [[("k", 1)]]⟩)⟩ []).fst =
        Except.ok true ↔
      1 ≤ Collection.countDocs ⟨"c", [[("k", 1)]]⟩ [] (some 1)) ∧
    (CRUDMixin.existsDoc ⟨some (some ⟨"c", [[("k", 1)]]⟩)⟩ []).snd =
      [BoundaryCall.countDocuments ⟨"c", [[("k", 1)]]⟩ [] (some 1)] :=
  C7_exists_capped_count ⟨some (some ⟨"c", [[("k", 1)]]⟩)⟩ ⟨"c", [[("k", 1)]]⟩
    rfl []

/-- C10: for every instance with a resolved collection, find_many and
find_all treat the falsy limit 0 exactly like no limit (no cap, all matching
documents returned), and a falsy filter (None, or the empty mapping) is
replaced by the match-everything filter before the lookup is issued, so the
boundary find call carries the empty filter. -/
theorem C10_falsy_limit_and_filter (s : CrudState) (c : Collection)
    (h : s.collection = some (some c)) (oq : Option Query) (l : Option Int) :
    CRUDMixin.find_many s oq (some 0) = CRUDMixin.find_many s oq none ∧
    CRUDMixin.find_all s oq (some 0) = CRUDMixin.find_all s oq none ∧
    (CRUDMixin.find_many s oq (some 0)).fst =
      Except.ok (c.findDocs (oq.getD [])) ∧
    (CRUDMixin.find_all s oq (some 0)).fst =
      Except.ok (c.findDocs (oq.getD [])) ∧
    CRUDMixin.find_many s none l = CRUDMixin.find_many s (some []) l ∧
    CRUDMixin.find_all s none l = CRUDMixin.find_all s (some []) l ∧
    (CRUDMixin.find_many s none l).snd.head? = some (BoundaryCall.find c []) ∧
    (CRUDMixin.find_all s none l).snd.head? = some (BoundaryCall.find c []) := by
  obtain ⟨oc⟩ := s
  cases h
  have hhead : ∀ lv : Option Int,
      (CRUDMixin.find_many ⟨some (some c)⟩ none lv).snd.head? =
        some (BoundaryCall.find c []) := by
    intro lv
    rcases lv with _ | lv
    · rfl
    · by_cases h0 : lv = 0 <;>
        simp [CRUDMixin.find_many, h0]
  refine ⟨?_, ?_, ?_, ?_, rfl, rfl, hhead l, hhead l⟩ <;>
    simp [CRUDMixin.find_many, CRUDMixin.find_all]

/-- Witness for C10 at a concrete collection, filter and limit. -/
theorem C10_falsy_witness :
    CRUDMixin.find_many ⟨some (some ⟨"c", [[("k", 1)]]⟩)⟩ none (some 0) =
      CRUDMixin.find_many ⟨some (some ⟨"c", [[("k", 1)]]⟩)⟩ none none :=
  (C10_falsy_limit_and_filter ⟨some (some ⟨"c", [[("k", 1)]]⟩)⟩
    ⟨"c", [[("k", 1)]]⟩ rfl none (some 0)).1

/-- C2: applying the decorator produced by collection(name) to a class, when
the database lookup of the name fails, raises the distinct
collection-not-accessible KeyError at decoration time; no wrapped type is
produced. -/
theorem C2_binding_error_on_unknown_collection (dec : CollectionDecorator)
    (clsName : String)
    (h : List.lookup dec.name dec.db.collections = none) :
    applyCollectionDecorator dec true clsName =
      Except.error (PyError.keyErrorNotAccessible dec.name) ∧
    ∀ w : WrappedType,
      applyCollectionDecorator dec true clsName ≠ Except.ok w := by
  have hres : applyCollectionDecorator dec true clsName =
      Except.error (PyError.keyErrorNotAccessible dec.name) := by
    simp [applyCollectionDecorator, h]
  refine ⟨hres, ?_⟩
  intro w hw
  rw [hres] at hw
  exact Except.noConfusion hw

/-- Witness for C2 against an empty database and the name users. -/
theorem C2_binding_error_witness :
    applyCollectionDecorator ⟨⟨[]⟩, "users", true⟩ true "UserService" =
      Except.error (PyError.keyErrorNotAccessible "users") :=
  (C2_binding_error_on_unknown_collection ⟨⟨[]⟩, "users", true⟩ "UserService"
    rfl).1

/-- C4 evaluated at its failing input: decorating a class with
collection(users) over a database in which users is present does not produce
a wrapped type at all — the wraps(cls) application inside the decorator
raises the mappingproxy AttributeError for every class — and, were that
bypassed as the test suite does by patching wraps, the final injection step
resolves self.db on the fresh instance (the injector is shadowed), so an
instance whose namespace has no db attribute fails with AttributeError
instead of receiving the collection. -/
theorem C4_code_bug_eval :
    applyCollectionDecorator ⟨⟨[("users", ⟨"users", []⟩)]⟩, "users", true⟩
        true "UserService" =
      Except.error PyError.attributeErrorMappingproxy ∧
    wrappedCollectionInject "users" ⟨none, none⟩ =
      Except.error PyError.attributeErrorNoDb :=
  ⟨rfl, rfl⟩

/-- C5 evaluated at its failing input: decorating a class with
multiple_collections over the map (primary maps to a, secondary maps to b)
with the capability set enabled fails with the same mappingproxy
AttributeError from wraps(cls), so the construction behavior the claim
describes is unreachable; and with wraps bypassed, the injection steps
resolve self.db on the fresh instance, so construction fails with
AttributeError when the instance namespace has no db attribute. -/
theorem C5_code_bug_eval :
    applyMultipleDecorator
        ⟨⟨[("a", ⟨"a", []⟩), ("b", ⟨"b", []⟩)]⟩, true,
          [("primary", "a"), ("secondary", "b")]⟩ true "CommerceService" =
      Except.error PyError.attributeErrorMappingproxy ∧
    multipleCollectionsInject true [("primary", "a"), ("secondary", "b")]
        ⟨none, [], none⟩ =
      Except.error PyError.attributeErrorNoDb :=
  ⟨rfl, rfl⟩

/-- C9: the capability-set inclusion defaults are fixed and differ between
the two decorator factories: calling collection without the with_crud
argument behaves as with_crud = true and the decorator it returns carries
with_crud true, while calling multiple_collections without the with_crud
argument behaves as with_crud = false and the decorator it returns carries
with_crud false. -/
theorem C9_crud_inclusion_defaults (inj : CollectionInjector) (name : String)
    (cols : List (String × String)) (d : CollectionDecorator)
    (m : MultipleDecorator)
    (h1 : inj.collectionDefault name = Except.ok d)
    (h2 : inj.multipleCollectionsDefault cols = Except.ok m) :
    inj.collectionDefault name = inj.collection name true ∧
    inj.multipleCollectionsDefault cols = inj.multiple_collections false cols ∧
    d.with_crud = true ∧
    m.with_crud = false := by
  refine ⟨rfl, rfl, ?_, ?_⟩
  · unfold CollectionInjector.collectionDefault CollectionInjector.collection at h1
    by_cases hn : name = ""
    · simp [hn] at h1
    · simp [hn] at h1
      rw [← h1]
  · unfold CollectionInjector.multipleCollectionsDefault
      CollectionInjector.multiple_collections at h2
    by_cases hc : cols.isEmpty
    · simp [hc] at h2
    · simp [hc] at h2
      rw [← h2]

/-- Witness for C9 at a concrete injector, name and name map. -/
theorem C9_crud_inclusion_witness :
    CollectionInjector.collectionDefault ⟨⟨[]⟩⟩ "users" =
      CollectionInjector.collection ⟨⟨[]⟩⟩ "users" true ∧
    CollectionInjector.multipleCollectionsDefault ⟨⟨[]⟩⟩ [("a", "x")] =
      CollectionInjector.multiple_collections ⟨⟨[]⟩⟩ false [("a", "x")] ∧
    CollectionDecorator.with_crud ⟨⟨[]⟩, "users", true⟩ = true ∧
    MultipleDecorator.with_crud ⟨⟨[]⟩, false, [("a", "x")]⟩ = false :=
  C9_crud_inclusion_defaults ⟨⟨[]⟩⟩ "users" [("a", "x")]
    ⟨⟨[]⟩, "users", true⟩ ⟨⟨[]⟩, false, [("a", "x")]⟩ rfl rfl
